import Mathlib

/-
Verification of the gprobe gRPC health-checker against its design
specification.

The development shallowly embeds the core of the program (main.go of the
TLS-capable release, plus the earlier probe package) in Lean:

* gRPC status codes, Go error values and the `status.Code` /
  `status.FromError` helpers are modelled by inductive data;
* `toHumanReadable`, `check`, `countTLSFlags`, `createTLSConfig`,
  `parseCredentials`, `createConfig` are translated function by function;
* `appMain` is given a trace semantics: the run result records the exit
  code, the exit message, the lines written to stdout, and the sequence
  of externally visible events (dialing with a given option and context,
  issuing the health RPC, closing the connection);
* the urfave/cli action layer (`runAction`) models the argument switch
  and the OnUsageError handler (help shown, exit code 1);
* file-system and network behaviour is abstracted into parameters: the
  outcome of `rootcerts.ConfigureTLS` is a function argument, and the
  outcomes of `grpc.DialContext` and `client.Check` form an environment
  record.
-/

set_option autoImplicit false

namespace Gprobe

/-- gRPC status codes (google.golang.org/grpc/codes). -/
inductive Code where
  | OK
  | Canceled
  | Unknown
  | InvalidArgument
  | DeadlineExceeded
  | NotFound
  | AlreadyExists
  | PermissionDenied
  | ResourceExhausted
  | FailedPrecondition
  | Aborted
  | OutOfRange
  | Unimplemented
  | Internal
  | Unavailable
  | DataLoss
  | Unauthenticated
  deriving DecidableEq, Repr

/-- String rendering of a status code, as by codes.Code.String(). -/
def Code.str : Code → String
  | .OK => "OK"
  | .Canceled => "Canceled"
  | .Unknown => "Unknown"
  | .InvalidArgument => "InvalidArgument"
  | .DeadlineExceeded => "DeadlineExceeded"
  | .NotFound => "NotFound"
  | .AlreadyExists => "AlreadyExists"
  | .PermissionDenied => "PermissionDenied"
  | .ResourceExhausted => "ResourceExhausted"
  | .FailedPrecondition => "FailedPrecondition"
  | .Aborted => "Aborted"
  | .OutOfRange => "OutOfRange"
  | .Unimplemented => "Unimplemented"
  | .Internal => "Internal"
  | .Unavailable => "Unavailable"
  | .DataLoss => "DataLoss"
  | .Unauthenticated => "Unauthenticated"

/-- A non-nil Go error value as seen by the program: either a gRPC status
error (carrying a code and a message, as produced by the grpc library) or
a plain error that carries no gRPC status. The Go nil error is modelled by
`Option.none` around this type. -/
inductive GoError where
  | rpcError (code : Code) (message : String)
  | plainError (message : String)
  deriving DecidableEq, Repr

/-- err.Error(): status errors render as the grpc library formats them,
plain errors render their message. -/
def GoError.message : GoError → String
  | .rpcError c m => "rpc error: code = " ++ c.str ++ " desc = " ++ m
  | .plainError m => m

/-- status.Code(err): nil maps to OK, a status error to its code, and any
other error to Unknown. -/
def statusCode : Option GoError → Code
  | none => .OK
  | some (.rpcError c _) => c
  | some (.plainError _) => .Unknown

/-- status.FromError(err): returns the extracted (code, message) pair
together with the ok flag that reports whether the error actually carried
a gRPC status (a plain error yields code Unknown and its message with
ok = false). -/
def statusFromError : Option GoError → (Code × String) × Bool
  | none => ((.OK, ""), true)
  | some (.rpcError c m) => ((c, m), true)
  | some (.plainError m) => ((.Unknown, m), false)

/-- toHumanReadable from main.go: classify a health-query error by its
gRPC status code into a fixed human-readable message, with a fallback
that forwards the message of any other status-carrying error and returns
non-status errors unchanged. -/
def toHumanReadable (err : Option GoError) (service : String) : Option GoError :=
  match statusCode err with
  | .OK => err
  | .Unavailable =>
      some (.plainError "connection refused: application isn\x27t listening or TLS handshake failed")
  | .Unimplemented =>
      some (.plainError "rpc error: server doesn\x27t implement gRPC health-checking protocol")
  | .NotFound =>
      some (.plainError ("rpc error: unknown service " ++ service))
  | _ =>
      match statusFromError err with
      | ((_, m), true) => some (.plainError ("rpc error: " ++ m))
      | (_, false) => err

/-- HealthCheckResponse_ServingStatus from grpc_health_v1; UNKNOWN is the
zero value of the enum. -/
inductive ServingStatus where
  | UNKNOWN
  | SERVING
  | NOT_SERVING
  | SERVICE_UNKNOWN
  deriving DecidableEq, Repr

/-- ServingStatus.String(). -/
def ServingStatus.str : ServingStatus → String
  | .UNKNOWN => "UNKNOWN"
  | .SERVING => "SERVING"
  | .NOT_SERVING => "NOT_SERVING"
  | .SERVICE_UNKNOWN => "SERVICE_UNKNOWN"

/-- The raw outcome of one client.Check RPC: an optional response carrying
a serving status, and an optional error (Go returns both slots). -/
structure RPCResult where
  response : Option ServingStatus
  err : Option GoError
  deriving DecidableEq, Repr

/-- check from main.go: run the health RPC, take the status from the
response when one is present (otherwise the zero value UNKNOWN of the enum),
and classify the error through toHumanReadable. -/
def check (rpc : RPCResult) (service : String) : ServingStatus × Option GoError :=
  let status := match rpc.response with
    | some s => s
    | none => ServingStatus.UNKNOWN
  (status, toHumanReadable rpc.err service)

/-- A Go context, reduced to the one feature the program uses: an optional
absolute wall-clock deadline (times are naturals, e.g. nanoseconds). -/
structure Context where
  deadline : Option Nat
  deriving DecidableEq, Repr

/-- context.Background(): no deadline. -/
def background : Context := { deadline := none }

/-- context.WithTimeout(parent, d) taken at wall-clock instant now: the
deadline is now + d, capped by the earlier deadline of the parent if any. -/
def contextWithTimeout (parent : Context) (now : Nat) (d : Nat) : Context :=
  { deadline :=
      match parent.deadline with
      | none => some (now + d)
      | some p => some (min p (now + d)) }

/-- Time remaining from instant now until the deadline of the context. -/
def Context.remaining (ctx : Context) (now : Nat) : Option Nat :=
  ctx.deadline.map (fun d => d - now)

/-- The tls.Config the program builds: whether verification is skipped and
which explicit CA file / CA path were configured into the root pool. -/
structure TLSConfig where
  insecureSkipVerify : Bool
  configuredCAFile : String
  configuredCAPath : String
  deriving DecidableEq, Repr

/-- Transport credentials as produced by credentials.NewTLS. -/
inductive Creds where
  | newTLS (cfg : TLSConfig)
  deriving DecidableEq, Repr

/-- The outcome of rootcerts.ConfigureTLS for a given (CAFile, CAPath)
pair: none on success, or the error message when the CA material cannot
be loaded or parsed. The file system is outside the program, so this is a
parameter of the embedding. -/
def RootcertsOutcome := String → String → Option String

/-- appFlags from main.go (durations are naturals). -/
structure AppFlags where
  timeout : Nat
  noFail : Bool
  tls : Bool
  tlsInsecure : Bool
  tlsCAFile : String
  tlsCAPath : String
  deriving DecidableEq, Repr

/-- appConfig from main.go. -/
structure AppConfig where
  timeout : Nat
  noFail : Bool
  serverAddress : String
  serviceName : String
  creds : Option Creds
  deriving DecidableEq, Repr

/-- countTLSFlags from main.go: a boolean TLS flag counts when set, a CA
file/path flag counts when its string value is non-empty. -/
def countTLSFlags (flags : AppFlags) : Nat :=
  (if flags.tls then 1 else 0) +
  (if flags.tlsInsecure then 1 else 0) +
  (if flags.tlsCAFile.length > 0 then 1 else 0) +
  (if flags.tlsCAPath.length > 0 then 1 else 0)

/-- createTLSConfig from main.go: in insecure mode skip verification and
never touch CA material; otherwise configure the roots via rootcerts and
fail with its error when loading/parsing fails. -/
def createTLSConfig (rootcerts : RootcertsOutcome) (caFile : String) (caPath : String)
    (insecure : Bool) : Except String TLSConfig :=
  if insecure then
    .ok { insecureSkipVerify := true, configuredCAFile := "", configuredCAPath := "" }
  else
    match rootcerts caFile caPath with
    | some e => .error e
    | none => .ok { insecureSkipVerify := false, configuredCAFile := caFile,
                    configuredCAPath := caPath }

/-- parseCredentials from main.go: zero TLS flags means plaintext (no
credentials); exactly one means build a TLS config; more than one is
rejected outright. -/
def parseCredentials (rootcerts : RootcertsOutcome) (flags : AppFlags) :
    Except String (Option Creds) :=
  match countTLSFlags flags with
  | 0 => .ok none
  | 1 =>
    match createTLSConfig rootcerts flags.tlsCAFile flags.tlsCAPath flags.tlsInsecure with
    | .error e => .error e
    | .ok cfg => .ok (some (.newTLS cfg))
  | _ => .error "at most one of --tls, --tls-insecure, --tls-cafile and --tls-capath is allowed"

/-- createConfig from main.go: the argument-count switch first, then the
credentials, whose failure is wrapped as a TLS-configuration parse
error. -/
def createConfig (rootcerts : RootcertsOutcome) (flags : AppFlags) (args : List String) :
    Except String AppConfig :=
  match args with
  | [a0, a1] =>
    match parseCredentials rootcerts flags with
    | .error e => .error ("can\x27t parse TLS configuration: " ++ e)
    | .ok creds =>
      .ok { timeout := flags.timeout, noFail := flags.noFail, serverAddress := a0,
            serviceName := a1, creds := creds }
  | [a0] =>
    match parseCredentials rootcerts flags with
    | .error e => .error ("can\x27t parse TLS configuration: " ++ e)
    | .ok creds =>
      .ok { timeout := flags.timeout, noFail := flags.noFail, serverAddress := a0,
            serviceName := "", creds := creds }
  | _ => .error "exactly 1 to 2 arguments are required"

/-- The dial option chosen by connect in main.go: grpc.WithInsecure when
no credentials were built, grpc.WithTransportCredentials otherwise. -/
inductive DialOption where
  | withInsecure
  | withTransportCredentials (creds : Creds)
  deriving DecidableEq, Repr

/-- Dial-option selection in connect (main.go). -/
def connectDialOption : Option Creds → DialOption
  | none => .withInsecure
  | some c => .withTransportCredentials c

/-- Externally visible events of one invocation, in order: dialing the
server (with the chosen dial option under a context), issuing the health
RPC (under a context, for a service), and closing the connection. -/
inductive Event where
  | dial (opt : DialOption) (ctx : Context)
  | rpcCheck (ctx : Context) (service : String)
  | close
  deriving DecidableEq, Repr

/-- Whether an event is the connection close. -/
def Event.isClose : Event → Bool
  | .close => true
  | _ => false

/-- Whether an event is a dial. -/
def Event.isDial : Event → Bool
  | .dial _ _ => true
  | _ => false

/-- Result of one appMain run: the exit code and exit message of the
returned cli.ExitError, the lines appMain wrote to stdout, and the trace
of external events. -/
structure RunResult where
  exitCode : Nat
  message : String
  stdout : List String
  events : List Event
  deriving DecidableEq, Repr

/-- The environment of one run: what grpc.DialContext returns for the
dial (none meaning success) and what client.Check returns when it is
reached. -/
structure AppEnv where
  connectErr : Option GoError
  rpc : RPCResult
  deriving DecidableEq, Repr

/-- ExitCodeUsage from main.go. -/
def ExitCodeUsage : Nat := 1

/-- ExitCodeHealthCheckNegative from main.go. -/
def ExitCodeHealthCheckNegative : Nat := 2

/-- ExitCodeUnexpected from main.go. -/
def ExitCodeUnexpected : Nat := 127

/-- appMain from main.go as a trace semantics. One context with the
configured timeout is created at invocation start t0 and shared by the
dial and the RPC. A dial failure exits 127 without a close (no connection
was established); after a successful dial the connection is closed on
every path. A query failure exits 127 before printing; otherwise the
status is printed to stdout and the no-fail/SERVING test decides between
exit 0 and exit 2. -/
def appMain (config : AppConfig) (t0 : Nat) (env : AppEnv) : RunResult :=
  let ctx := contextWithTimeout background t0 config.timeout
  let dialEvt := Event.dial (connectDialOption config.creds) ctx
  match env.connectErr with
  | some e =>
    { exitCode := ExitCodeUnexpected,
      message := "can\x27t connect to application: " ++ e.message,
      stdout := [], events := [dialEvt] }
  | none =>
    match check env.rpc config.serviceName with
    | (_, some e) =>
      { exitCode := ExitCodeUnexpected, message := e.message,
        stdout := [], events := [dialEvt, .rpcCheck ctx config.serviceName, .close] }
    | (st, none) =>
      if !(config.noFail || st = ServingStatus.SERVING) then
        { exitCode := ExitCodeHealthCheckNegative, message := "health-check failed",
          stdout := [st.str], events := [dialEvt, .rpcCheck ctx config.serviceName, .close] }
      else
        { exitCode := 0, message := "",
          stdout := [st.str], events := [dialEvt, .rpcCheck ctx config.serviceName, .close] }

/-- Result of the cli action layer: as RunResult, plus whether CLI help
was shown (the OnUsageError handler calls cli.ShowAppHelp; where the CLI
library routes the help text is outside the modelled core). -/
structure CLIResult where
  exitCode : Nat
  message : String
  helpShown : Bool
  stdout : List String
  events : List Event
  deriving DecidableEq, Repr

/-- app.Action plus OnUsageError from main.go: a createConfig failure is
routed to OnUsageError, which shows help and exits with ExitCodeUsage
before any network activity; otherwise appMain runs. -/
def runAction (rootcerts : RootcertsOutcome) (flags : AppFlags) (args : List String)
    (t0 : Nat) (env : AppEnv) : CLIResult :=
  match createConfig rootcerts flags args with
  | .error e =>
    { exitCode := ExitCodeUsage, message := e, helpShown := true, stdout := [], events := [] }
  | .ok config =>
    let r := appMain config t0 env
    { exitCode := r.exitCode, message := r.message, helpShown := false,
      stdout := r.stdout, events := r.events }

end Gprobe

namespace Probe

/-- HealthCheckRequest from grpc_health_v1: the Service field defaults to
the proto3 zero value, the empty string. -/
structure HealthCheckRequest where
  service : String := ""
  deriving DecidableEq, Repr

/-- Behaviour of the health client: what client.Check returns for a
request issued under a context. -/
def HealthClient := Gprobe.Context → HealthCheckRequest → Gprobe.RPCResult

/-- doCheck from probe/probe.go: arm a fresh context with OpTimeout over
the background context of the package, issue the RPC, and take the status from
the response when present (otherwise the zero value of the enum). -/
def doCheck (opTimeout : Nat) (now : Nat) (client : HealthClient)
    (request : HealthCheckRequest) : Gprobe.ServingStatus × Option Gprobe.GoError :=
  let lctx := Gprobe.contextWithTimeout Gprobe.background now opTimeout
  let response := client lctx request
  (match response.response with
   | some s => s
   | none => Gprobe.ServingStatus.UNKNOWN,
   response.err)

/-- CheckServer from probe/probe.go: health of the server overall, an
empty request. -/
def CheckServer (opTimeout : Nat) (now : Nat) (client : HealthClient) :
    Gprobe.ServingStatus × Option Gprobe.GoError :=
  doCheck opTimeout now client {}

/-- CheckService from probe/probe.go: health of a named service. -/
def CheckService (opTimeout : Nat) (now : Nat) (client : HealthClient)
    (serviceName : String) : Gprobe.ServingStatus × Option Gprobe.GoError :=
  doCheck opTimeout now client { service := serviceName }

end Probe

open Gprobe

/-- C9: toHumanReadable returns nil exactly when its input error is nil —
classification never turns a success into a failure and never swallows a
failure. -/
theorem toHumanReadable_none_iff (err : Option GoError) (service : String) :
    toHumanReadable err service = none ↔ err = none := by
  cases err with
  | none => simp [toHumanReadable, statusCode]
  | some e =>
    cases e with
    | rpcError c m => cases c <;> simp [toHumanReadable, statusCode, statusFromError]
    | plainError m => simp [toHumanReadable, statusCode, statusFromError]

/-- C8: checking the empty-named service is the same operation as checking
the whole server: the request records are equal and CheckService "" agrees
with CheckServer on status and error for every client behaviour, timeout
and instant. -/
theorem CheckService_empty_eq_CheckServer (opTimeout now : Nat) (client : Probe.HealthClient) :
    Probe.CheckService opTimeout now client "" = Probe.CheckServer opTimeout now client ∧
    ({ service := "" } : Probe.HealthCheckRequest) = ({} : Probe.HealthCheckRequest) :=
  ⟨rfl, rfl⟩

/-- C1: the exit-code decision of appMain — a dial failure or a failed
query exits 127 whatever the no-fail flag; a successful query with status
SERVING exits 0; a successful query with a non-SERVING status exits 0 and
still prints the status when no-fail is set, and exits 2 otherwise. -/
theorem appMain_exit_code_policy (config : AppConfig) (t0 : Nat) (env : AppEnv) :
    (env.connectErr ≠ none → (appMain config t0 env).exitCode = ExitCodeUnexpected) ∧
    (env.connectErr = none → (check env.rpc config.serviceName).2 ≠ none →
      (appMain config t0 env).exitCode = ExitCodeUnexpected) ∧
    (env.connectErr = none → (check env.rpc config.serviceName).2 = none →
      (((check env.rpc config.serviceName).1 = ServingStatus.SERVING →
          (appMain config t0 env).exitCode = 0) ∧
       ((check env.rpc config.serviceName).1 ≠ ServingStatus.SERVING → config.noFail = true →
          (appMain config t0 env).exitCode = 0 ∧
          (appMain config t0 env).stdout = [((check env.rpc config.serviceName).1).str]) ∧
       ((check env.rpc config.serviceName).1 ≠ ServingStatus.SERVING → config.noFail = false →
          (appMain config t0 env).exitCode = ExitCodeHealthCheckNegative))) := by
  rcases hch : check env.rpc config.serviceName with ⟨st, e⟩
  cases hc : env.connectErr with
  | some e0 =>
    refine ⟨fun _ => ?_, fun h => absurd h (by simp [hc]), fun h => absurd h (by simp [hc])⟩
    simp [appMain, hc]
  | none =>
    refine ⟨fun h => absurd rfl h, fun _ he => ?_, fun _ he => ?_⟩
    · simp only [hch] at he
      cases e with
      | none => exact absurd rfl he
      | some e1 => simp [appMain, hc, hch]
    · simp only [hch] at he
      cases e with
      | some e1 => exact absurd he (by simp)
      | none =>
        refine ⟨fun hst => ?_, fun hst hnf => ?_, fun hst hnf => ?_⟩
        · replace hst : st = ServingStatus.SERVING := by simpa using hst
          simp [appMain, hc, hch, hst]
        · replace hst : ¬st = ServingStatus.SERVING := by simpa using hst
          simp [appMain, hc, hch, hst, hnf]
        · replace hst : ¬st = ServingStatus.SERVING := by simpa using hst
          simp [appMain, hc, hch, hst, hnf, ExitCodeHealthCheckNegative]

/-- C2 counterexample: a failure that carries no gRPC status is returned
by toHumanReadable verbatim — not forwarded with a protocol-issue prefix,
contradicting the claim that the raw error is never surfaced. -/
theorem toHumanReadable_raw_fallback_counterexample :
    toHumanReadable (some (.plainError "boom")) "svc" = some (.plainError "boom") := rfl

/-- C2 amended: the error of a failed query maps by status code to a fixed
message (Unavailable, Unimplemented, NotFound naming the service); every
other status-carrying failure is forwarded as its message text stripped
of the status code and prefixed as an rpc error; a failure with no gRPC
status is returned unchanged (raw). -/
theorem toHumanReadable_classification (service m : String) :
    toHumanReadable (some (.rpcError .Unavailable m)) service =
      some (.plainError "connection refused: application isn\x27t listening or TLS handshake failed") ∧
    toHumanReadable (some (.rpcError .Unimplemented m)) service =
      some (.plainError "rpc error: server doesn\x27t implement gRPC health-checking protocol") ∧
    toHumanReadable (some (.rpcError .NotFound m)) service =
      some (.plainError ("rpc error: unknown service " ++ service)) ∧
    (∀ c : Code, c ≠ .OK → c ≠ .Unavailable → c ≠ .Unimplemented → c ≠ .NotFound →
      toHumanReadable (some (.rpcError c m)) service =
        some (.plainError ("rpc error: " ++ m))) ∧
    toHumanReadable (some (.plainError m)) service = some (.plainError m) := by
  refine ⟨rfl, rfl, rfl, ?_, rfl⟩
  intro c h1 h2 h3 h4
  cases c <;>
    first
      | rfl
      | exact absurd rfl h1
      | exact absurd rfl h2
      | exact absurd rfl h3
      | exact absurd rfl h4

/-- C2 witness: the amended classification evaluated at a concrete
Internal-status failure, which is forwarded with the rpc-error prefix. -/
theorem toHumanReadable_classification_witness :
    toHumanReadable (some (.rpcError .Internal "backend exploded")) "svc" =
      some (.plainError ("rpc error: " ++ "backend exploded")) :=
  (toHumanReadable_classification "svc" "backend exploded").2.2.2.1 .Internal
    (by decide) (by decide) (by decide) (by decide)

/-- C4: one shared deadline — every dial event and every health-RPC event
of a run carries a context whose deadline is the single instant
t0 + timeout computed at invocation start, and the remaining query
budget at any instant is the time left until that original deadline. -/
theorem appMain_shared_deadline (config : AppConfig) (t0 : Nat) (env : AppEnv) :
    (∀ opt ctx, Event.dial opt ctx ∈ (appMain config t0 env).events →
      ctx.deadline = some (t0 + config.timeout)) ∧
    (∀ ctx s, Event.rpcCheck ctx s ∈ (appMain config t0 env).events →
      ctx.deadline = some (t0 + config.timeout) ∧
      ∀ t, ctx.remaining t = some (t0 + config.timeout - t)) := by
  have hev : (appMain config t0 env).events =
        [Event.dial (connectDialOption config.creds) (contextWithTimeout background t0 config.timeout)] ∨
      (appMain config t0 env).events =
        [Event.dial (connectDialOption config.creds) (contextWithTimeout background t0 config.timeout),
         Event.rpcCheck (contextWithTimeout background t0 config.timeout) config.serviceName,
         Event.close] := by
    cases hc : env.connectErr with
    | some e0 => left; simp [appMain, hc]
    | none =>
      right
      rcases hch : check env.rpc config.serviceName with ⟨st, e⟩
      cases e with
      | some e1 => simp [appMain, hc, hch]
      | none =>
        simp only [appMain, hc, hch]
        split <;> rfl
  constructor
  · intro opt ctx hmem
    rcases hev with h | h <;> rw [h] at hmem <;> simp at hmem <;>
      rw [hmem.2] <;> rfl
  · intro ctx s hmem
    rcases hev with h | h <;> rw [h] at hmem <;> simp at hmem
    refine ⟨by rw [hmem.1]; rfl, fun t => by rw [hmem.1]; rfl⟩

/-- C4 witness: in a concrete run with timeout 7 started at instant 0,
the health RPC runs under the own deadline of the invocation 0 + 7 and its
remaining budget at instant 3 is the time left until that deadline. -/
theorem appMain_shared_deadline_witness :
    (contextWithTimeout background 0 7).deadline = some (0 + 7) ∧
    (contextWithTimeout background 0 7).remaining 3 = some (0 + 7 - 3) := by
  have h := appMain_shared_deadline
    { timeout := 7, noFail := false, serverAddress := "a", serviceName := "s", creds := none } 0
    { connectErr := none, rpc := { response := some .SERVING, err := none } }
  exact ⟨(h.2 (contextWithTimeout background 0 7) "s" (by decide)).1,
         (h.2 (contextWithTimeout background 0 7) "s" (by decide)).2 3⟩

/-- C7: once the dial succeeded, every exit path of appMain — query
success, negative health and query error alike — closes the connection
exactly once, as the final action; and each invocation dials exactly
once (no connection carries over between runs). -/
theorem appMain_connection_closed_once (config : AppConfig) (t0 : Nat) (env : AppEnv)
    (h : env.connectErr = none) :
    ((appMain config t0 env).events.countP Event.isClose) = 1 ∧
    (appMain config t0 env).events.getLast? = some Event.close ∧
    ((appMain config t0 env).events.countP Event.isDial) = 1 := by
  rcases hch : check env.rpc config.serviceName with ⟨st, e⟩
  cases e with
  | some e1 =>
    simp only [appMain, h, hch]
    exact ⟨rfl, rfl, rfl⟩
  | none =>
    simp only [appMain, h, hch]
    split <;> exact ⟨rfl, rfl, rfl⟩

/-- C7 witness: a concrete run with an established connection and a
query error still closes the connection exactly once, last. -/
theorem appMain_connection_closed_once_witness :
    ((appMain
        { timeout := 5, noFail := false, serverAddress := "a", serviceName := "s", creds := none } 0
        { connectErr := none,
          rpc := { response := none, err := some (.rpcError .Internal "kaput") } }).events.countP
      Event.isClose) = 1 ∧
    (appMain
        { timeout := 5, noFail := false, serverAddress := "a", serviceName := "s", creds := none } 0
        { connectErr := none,
          rpc := { response := none, err := some (.rpcError .Internal "kaput") } }).events.getLast?
      = some Event.close :=
  ⟨(appMain_connection_closed_once _ _ _ rfl).1,
   (appMain_connection_closed_once _ _ _ rfl).2.1⟩

/-- Case analysis of the stdout of appMain: the status line is written exactly
when the dial and the query both succeed, and then it is the rendered
status; on every failure path stdout is untouched. -/
theorem appMain_stdout_cases (config : AppConfig) (t0 : Nat) (env : AppEnv) :
    (env.connectErr = none ∧ (check env.rpc config.serviceName).2 = none ∧
      (appMain config t0 env).stdout = [((check env.rpc config.serviceName).1).str]) ∨
    ((env.connectErr ≠ none ∨ (check env.rpc config.serviceName).2 ≠ none) ∧
      (appMain config t0 env).stdout = []) := by
  cases hc : env.connectErr with
  | some e0 =>
    exact Or.inr ⟨Or.inl (by simp), by simp [appMain, hc]⟩
  | none =>
    rcases hch : check env.rpc config.serviceName with ⟨st, e⟩
    cases e with
    | some e1 =>
      refine Or.inr ⟨Or.inr (by simp [hch]), ?_⟩
      simp [appMain, hc, hch]
    | none =>
      refine Or.inl ⟨rfl, by simp [hch], ?_⟩
      simp only [appMain, hc, hch]
      split <;> rfl

/-- C6: stdout carries at most one line, and exactly the rendered health
status; it is non-empty precisely when a status was obtained (dial and
query both succeeded), and it stays empty on usage/configuration failures
(createConfig errors) as well as on dial and query failures. -/
theorem stdout_single_status_line (rootcerts : RootcertsOutcome) (flags : AppFlags)
    (args : List String) (t0 : Nat) (env : AppEnv) :
    ((runAction rootcerts flags args t0 env).stdout = [] ∨
      ∃ s : ServingStatus, (runAction rootcerts flags args t0 env).stdout = [s.str]) ∧
    (∀ e, createConfig rootcerts flags args = .error e →
      (runAction rootcerts flags args t0 env).stdout = []) ∧
    (∀ config, createConfig rootcerts flags args = .ok config →
      ((runAction rootcerts flags args t0 env).stdout ≠ [] ↔
        (env.connectErr = none ∧ (check env.rpc config.serviceName).2 = none)) ∧
      (env.connectErr = none → (check env.rpc config.serviceName).2 = none →
        (runAction rootcerts flags args t0 env).stdout =
          [((check env.rpc config.serviceName).1).str])) := by
  cases hcc : createConfig rootcerts flags args with
  | error e0 =>
    have hs : (runAction rootcerts flags args t0 env).stdout = [] := by simp [runAction, hcc]
    refine ⟨Or.inl hs, fun e h => hs, fun config h => ?_⟩
    exact absurd h (by simp)
  | ok config0 =>
    have hs : (runAction rootcerts flags args t0 env).stdout = (appMain config0 t0 env).stdout := by
      simp [runAction, hcc]
    refine ⟨?_, fun e h => absurd h (by simp), fun config h => ?_⟩
    · rcases appMain_stdout_cases config0 t0 env with ⟨_, _, h3⟩ | ⟨_, h2⟩
      · exact Or.inr ⟨_, hs.trans h3⟩
      · exact Or.inl (hs.trans h2)
    · injection h with hco
      subst hco
      refine ⟨⟨fun hne => ?_, fun hok => ?_⟩, fun h1 h2 => ?_⟩
      · rcases appMain_stdout_cases config0 t0 env with ⟨h1, h2, _⟩ | ⟨_, h2⟩
        · exact ⟨h1, h2⟩
        · exact absurd (hs.trans h2) hne
      · rcases appMain_stdout_cases config0 t0 env with ⟨_, _, h3⟩ | ⟨hbad, _⟩
        · rw [hs.trans h3]; simp
        · rcases hbad with hb | hb
          · exact absurd hok.1 hb
          · exact absurd hok.2 hb
      · rcases appMain_stdout_cases config0 t0 env with ⟨_, _, h3⟩ | ⟨hbad, _⟩
        · exact hs.trans h3
        · rcases hbad with hb | hb
          · exact absurd h1 hb
          · exact absurd h2 hb

/-- C6 witness: a concrete successful run writes exactly the one status
line SERVING to stdout. -/
theorem stdout_single_status_line_witness :
    (runAction (fun _ _ => none)
      { timeout := 1, noFail := false, tls := false, tlsInsecure := false,
        tlsCAFile := "", tlsCAPath := "" } ["a"] 0
      { connectErr := none, rpc := { response := some .SERVING, err := none } }).stdout
    = [ServingStatus.str .SERVING] := by
  have h := (stdout_single_status_line (fun _ _ => none)
      { timeout := 1, noFail := false, tls := false, tlsInsecure := false,
        tlsCAFile := "", tlsCAPath := "" } ["a"] 0
      { connectErr := none, rpc := { response := some .SERVING, err := none } }).2.2
      { timeout := 1, noFail := false, serverAddress := "a", serviceName := "", creds := none }
      rfl
  exact h.2 rfl (by decide)

/-- C5: whenever more than one of the four TLS flags is set, the run is
rejected during configuration with the usage exit code 1, help shown, no
event whatsoever (in particular no dial) and nothing on stdout. -/
theorem conflicting_tls_flags_usage_error (rootcerts : RootcertsOutcome) (flags : AppFlags)
    (args : List String) (t0 : Nat) (env : AppEnv) (h : 2 ≤ countTLSFlags flags) :
    (runAction rootcerts flags args t0 env).exitCode = ExitCodeUsage ∧
    (runAction rootcerts flags args t0 env).events = [] ∧
    (runAction rootcerts flags args t0 env).stdout = [] ∧
    (runAction rootcerts flags args t0 env).helpShown = true := by
  rcases hcnt : countTLSFlags flags with _ | _ | n
  · omega
  · omega
  · rcases args with _ | ⟨a0, _ | ⟨a1, _ | ⟨a2, rest⟩⟩⟩ <;>
      simp [runAction, createConfig, parseCredentials, hcnt]

/-- C5 witness: setting both --tls and --tls-insecure with otherwise
valid arguments exits 1 with no event and empty stdout. -/
theorem conflicting_tls_flags_usage_error_witness :
    (runAction (fun _ _ => none)
      { timeout := 1, noFail := false, tls := true, tlsInsecure := true,
        tlsCAFile := "", tlsCAPath := "" } ["a"] 0
      { connectErr := none, rpc := { response := some .SERVING, err := none } }).exitCode
      = ExitCodeUsage ∧
    (runAction (fun _ _ => none)
      { timeout := 1, noFail := false, tls := true, tlsInsecure := true,
        tlsCAFile := "", tlsCAPath := "" } ["a"] 0
      { connectErr := none, rpc := { response := some .SERVING, err := none } }).events = [] :=
  ⟨(conflicting_tls_flags_usage_error _ _ _ _ _ (by decide)).1,
   (conflicting_tls_flags_usage_error _ _ _ _ _ (by decide)).2.1⟩

/-- C10: an empty-string CA file or CA path value does not count as a set
TLS flag; with no other TLS flag the count is zero, credentials resolve
to plaintext, configuration is exactly the one produced for absent CA
flags (under any CA loader), and the dial uses the insecure (plaintext)
option rather than TLS. -/
theorem empty_ca_flag_plaintext (rootcerts rc2 : RootcertsOutcome) (flags : AppFlags)
    (args : List String)
    (h1 : flags.tls = false) (h2 : flags.tlsInsecure = false)
    (h3 : flags.tlsCAFile = "") (h4 : flags.tlsCAPath = "") :
    countTLSFlags flags = 0 ∧
    parseCredentials rootcerts flags = .ok none ∧
    createConfig rootcerts flags args = createConfig rc2
      { timeout := flags.timeout, noFail := flags.noFail, tls := false,
        tlsInsecure := false, tlsCAFile := "", tlsCAPath := "" } args ∧
    (∀ config, createConfig rootcerts flags args = .ok config →
      config.creds = none ∧ connectDialOption config.creds = .withInsecure) := by
  have hcnt : countTLSFlags flags = 0 := by
    simp [countTLSFlags, h1, h2, h3, h4]
  have hpc : parseCredentials rootcerts flags = .ok none := by
    simp [parseCredentials, hcnt]
  have hcnt2 : countTLSFlags
      { timeout := flags.timeout, noFail := flags.noFail, tls := false,
        tlsInsecure := false, tlsCAFile := "", tlsCAPath := "" } = 0 := by
    simp [countTLSFlags]
  refine ⟨hcnt, hpc, ?_, ?_⟩
  · rcases args with _ | ⟨a0, _ | ⟨a1, _ | ⟨a2, rest⟩⟩⟩ <;>
      simp [createConfig, parseCredentials, hcnt, hcnt2]
  · intro config h
    rcases args with _ | ⟨a0, _ | ⟨a1, _ | ⟨a2, rest⟩⟩⟩ <;>
      simp [createConfig, hpc] at h
    · rw [← h]
      exact ⟨rfl, rfl⟩
    · rw [← h]
      exact ⟨rfl, rfl⟩

/-- C10 witness: with --tls-cafile given the empty string, the count is
zero, credentials are plaintext and a valid run dials insecurely. -/
theorem empty_ca_flag_plaintext_witness :
    countTLSFlags
      { timeout := 1, noFail := false, tls := false, tlsInsecure := false,
        tlsCAFile := "", tlsCAPath := "" } = 0 ∧
    parseCredentials (fun _ _ => some "unused")
      { timeout := 1, noFail := false, tls := false, tlsInsecure := false,
        tlsCAFile := "", tlsCAPath := "" } = .ok none :=
  ⟨(empty_ca_flag_plaintext (fun _ _ => some "unused") (fun _ _ => none) _ [] rfl rfl rfl rfl).1,
   (empty_ca_flag_plaintext (fun _ _ => some "unused") (fun _ _ => none) _ [] rfl rfl rfl rfl).2.1⟩

/-- C3 counterexample: a run with a CA file that fails to load exits with
the usage exit code 1 (not 127) and shows CLI help besides the message;
the CA failure is detected before any event (no dialing). -/
theorem ca_parse_failure_counterexample :
    (runAction (fun _ _ => some "no certs found")
      { timeout := 1, noFail := false, tls := false, tlsInsecure := false,
        tlsCAFile := "ca.pem", tlsCAPath := "" }
      ["localhost:1234"] 0
      { connectErr := none, rpc := { response := some .SERVING, err := none } }) =
    { exitCode := ExitCodeUsage,
      message := "can\x27t parse TLS configuration: no certs found",
      helpShown := true, stdout := [], events := [] } := rfl

/-- C3 amended: with a valid CLI shape and a single TLS mode given by an
explicit CA file or directory, a CA load/parse failure is detected during
configuration, before any dialing (no event, zero network activity), and
is reported through the usage-error path: CLI help is shown alongside the
wrapped message and the exit code is 1, not 127. -/
theorem ca_parse_failure_amended (rootcerts : RootcertsOutcome) (flags : AppFlags)
    (args : List String) (t0 : Nat) (env : AppEnv) (e : String) (a0 : String)
    (hargs : args = [a0] ∨ ∃ a1, args = [a0, a1])
    (hcnt : countTLSFlags flags = 1)
    (hins : flags.tlsInsecure = false)
    (_hca : 0 < flags.tlsCAFile.length ∨ 0 < flags.tlsCAPath.length)
    (hload : rootcerts flags.tlsCAFile flags.tlsCAPath = some e) :
    runAction rootcerts flags args t0 env =
      { exitCode := ExitCodeUsage,
        message := "can\x27t parse TLS configuration: " ++ e,
        helpShown := true, stdout := [], events := [] } := by
  have hpc : parseCredentials rootcerts flags = .error e := by
    simp [parseCredentials, hcnt, createTLSConfig, hins, hload]
  rcases hargs with h | ⟨a1, h⟩ <;> subst h <;>
    simp [runAction, createConfig, hpc]

/-- C3 witness: the amended behaviour at a concrete failing CA file. -/
theorem ca_parse_failure_amended_witness :
    (runAction (fun _ _ => some "no certs found")
      { timeout := 1, noFail := false, tls := false, tlsInsecure := false,
        tlsCAFile := "ca.pem", tlsCAPath := "" }
      ["localhost:1234"] 0
      { connectErr := none, rpc := { response := some .SERVING, err := none } }).exitCode
    = ExitCodeUsage := by
  have h := ca_parse_failure_amended (fun _ _ => some "no certs found")
      { timeout := 1, noFail := false, tls := false, tlsInsecure := false,
        tlsCAFile := "ca.pem", tlsCAPath := "" }
      ["localhost:1234"] 0
      { connectErr := none, rpc := { response := some .SERVING, err := none } }
      "no certs found" "localhost:1234"
      (Or.inl rfl) (by decide) rfl (Or.inl (by decide)) rfl
  rw [h]

/-- C1 witness: the policy evaluated at concrete runs — a failed dial
exits 127, a NOT_SERVING status with no-fail exits 0, and a NOT_SERVING
status without no-fail exits 2. -/
theorem appMain_exit_code_policy_witness :
    (appMain
        { timeout := 5, noFail := false, serverAddress := "a", serviceName := "s", creds := none } 0
        { connectErr := some (.plainError "refused"),
          rpc := { response := none, err := none } }).exitCode = ExitCodeUnexpected ∧
    (appMain
        { timeout := 5, noFail := true, serverAddress := "a", serviceName := "s", creds := none } 0
        { connectErr := none,
          rpc := { response := some .NOT_SERVING, err := none } }).exitCode = 0 ∧
    (appMain
        { timeout := 5, noFail := false, serverAddress := "a", serviceName := "s", creds := none } 0
        { connectErr := none,
          rpc := { response := some .NOT_SERVING, err := none } }).exitCode
      = ExitCodeHealthCheckNegative := by
  refine ⟨?_, ?_, ?_⟩
  · exact (appMain_exit_code_policy _ _ _).1 (by decide)
  · exact (((appMain_exit_code_policy _ _ _).2.2 (by decide) (by decide)).2.1 (by decide) rfl).1
  · exact ((appMain_exit_code_policy _ _ _).2.2 (by decide) (by decide)).2.2 (by decide) rfl
